import Mathlib

/-!
Verification development for the `contain` appender pipeline
(package `appender`, file src/unnamed/part_001, with the config schema from
src/unnamed/part_000). The Go code is shallowly embedded: each Go function
becomes a Lean function over explicit state; results of collaborator calls
(go-containerregistry remote pull, manifest media type, digest computation,
registry write) are supplied as oracle values, since those collaborators are
outside this repository. Process termination via zap Fatal and Go runtime
panics are modelled as explicit outcome constructors.
-/

set_option autoImplicit false

namespace Contain

/-- A Go error value: either a leaf message (errors.New / library error) or a
wrapping produced by fmt.Errorf with a context string and percent-w verb. -/
inductive GoError where
  | goError (msg : String)
  | wrapped (context : String) (inner : GoError)
deriving DecidableEq, Repr

/-- v1.Hash from go-containerregistry: an algorithm name and a hex digest. -/
structure Hash where
  algorithm : String
  hex : String
deriving DecidableEq, Repr

/-- Hash.String(): algorithm, colon, hex. -/
def Hash.str (h : Hash) : String := h.algorithm ++ ":" ++ h.hex

/-- The zero value v1.Hash, as produced by a failed Digest() call
(`noresult := v1.Hash{}` in Append). -/
def Hash.zero : Hash := ⟨"", ""⟩

/-- types.MediaType is a string type in go-containerregistry. -/
abbrev MediaType := String

/-- types.OCIManifestSchema1. -/
def OCIManifestSchema1 : MediaType := "application/vnd.oci.image.manifest.v1+json"

/-- types.OCILayer. -/
def OCILayer : MediaType := "application/vnd.oci.image.layer.v1.tar+gzip"

/-- types.DockerLayer. -/
def DockerLayer : MediaType := "application/vnd.docker.image.rootfs.diff.tar.gzip"

/-- types.DockerManifestSchema2, used as a sample non-OCI manifest type. -/
def DockerManifestSchema2 : MediaType := "application/vnd.docker.distribution.manifest.v2+json"

/-- A v1.Layer as the appender consumes it: an opaque object. `none` models a
nil layer interface value (which mutate.AppendLayers rejects). -/
abbrev ImgLayer := Option String

/-- name.Reference: a parsed registry coordinate, either a tag reference or a
digest reference. `repository` is what RepositoryStr() returns; the second
component is what Identifier() returns. -/
inductive Reference where
  | tag (repository : String) (tagName : String)
  | digest (repository : String) (dig : String)
deriving DecidableEq, Repr

/-- Whether an optional reference is a tag reference, i.e. whether the Go type
assertion `c.baseRef.(name.Tag)` succeeds (false also for the nil interface). -/
def isTagRef : Option Reference → Bool
  | some (.tag _ _) => true
  | _ => false

/-- Reference.String(), simplified to repository plus identifier; used only
inside log/context message strings. -/
def refStr : Option Reference → String
  | none => "<nil>"
  | some (.tag repo t) => repo ++ ":" ++ t
  | some (.digest repo d) => repo ++ "@" ++ d

/-- A v1.Image as the appender observes it: manifest media type, ordered layer
list, manifest annotation entries, and an opaque config blob. -/
structure Image where
  mediaType : MediaType
  layers : List ImgLayer
  annots : List (String × String)
  config : String
deriving DecidableEq, Repr

/-- Lookup of a manifest annotation key in an entry list (Go map lookup). -/
def lookupAnn (as : List (String × String)) (k : String) : Option String :=
  match as with
  | [] => none
  | (k', v) :: rest => if k' = k then some v else lookupAnn rest k

/-- Models mutate.Annotations from go-containerregistry v0.13.0: the supplied
entries are merged into the manifest's existing annotation map, with supplied
keys overriding existing ones and all other existing keys preserved. -/
def mergeAnns (old new : List (String × String)) : List (String × String) :=
  old.filter (fun p => (lookupAnn new p.1).isNone) ++ new

/-- schema.ContainConfig (src/unnamed/part_000), restricted to the fields the
appender reads: the base reference string, the result tag string and the
platform list. -/
structure ContainConfig where
  Base : String
  Tag : String
  Platforms : List String
deriving DecidableEq, Repr

/-- The Appender struct (part_001 lines 26-33). `baseRef`/`tagRef` are nil
(none) when the corresponding parse failed in New; `mediaType`/`layerType`
start as the empty string (Go zero value). -/
structure Appender where
  config : ContainConfig
  baseRef : Option Reference
  tagRef : Option Reference
  mediaType : MediaType
  layerType : MediaType
deriving DecidableEq, Repr

/-- One zap log event, carrying the fields the claims need to distinguish. -/
inductive LogEvent where
  | errorE (msg : String) (e : GoError)
  | errorMsg (msg : String)
  | warnMsg (msg : String)
  | infoMsg (msg : String)
  | infoPushed (completed total : Int)
  | infoPush (completed total : Int)
  | debugMsg (msg : String)
  | fatalMsg (msg : String)
deriving DecidableEq, Repr

/-- Outcome of running a piece of the Go code: a normal return value, a
returned non-nil error, process termination via zap Fatal, or a Go runtime
panic. -/
inductive Outcome (α : Type) where
  | ok (a : α)
  | err (e : GoError)
  | fatal (msg : String)
  | panicked (msg : String)
deriving DecidableEq, Repr

/-- New (part_001 lines 35-56). `baseParse`/`tagParse` are the results of
name.ParseReference on config.Base and config.Tag. A parse failure is only
logged; New still returns a nil error. When the base parse fails, line 45
calls String() on the nil baseRef interface, which is a Go nil-pointer panic;
the tagRef debug log (line 51) is guarded by a nil check, so a failed tag
parse leaves tagRef nil and New returns normally. -/
def New (config : ContainConfig) (baseParse tagParse : Except GoError Reference) :
    Outcome Appender × List LogEvent :=
  match baseParse with
  | .error _e =>
      (.panicked "nil pointer dereference: baseRef.String()",
       [.errorMsg "Failed to parse base"])
  | .ok br =>
    match tagParse with
    | .error _e =>
        (.ok { config := config, baseRef := some br, tagRef := none,
               mediaType := "", layerType := "" },
         [.debugMsg "base image", .errorMsg "Failed to parse result image ref"])
    | .ok tr =>
        (.ok { config := config, baseRef := some br, tagRef := some tr,
               mediaType := "", layerType := "" },
         [.debugMsg "base image", .debugMsg "target image"])

/-- Options (part_001 lines 58-61): the body is a single zap Fatal call; the
trailing `return nil` is unreachable. -/
def Options (_c : Appender) : Outcome Unit × List LogEvent :=
  (.fatal "TODO how?", [.fatalMsg "TODO how?"])

/-- Results of the collaborator calls a build makes: remote.Image on the base
reference, Image.MediaType(), and Image.Digest(). -/
structure Oracles where
  pull : Except GoError Image
  mediaTypeOf : Image → Except GoError MediaType
  digestOf : Image → Except GoError Hash

/-- base (part_001 lines 65-91). If mediaType is already non-empty the method
terminates the process via zap Fatal without touching the network; otherwise
it pulls the base, reads its media type, derives the layer type (OCI layer
for an OCI manifest, Docker layer otherwise) and persists both on the
instance. Errors are wrapped with context as by fmt.Errorf. -/
def baseStep (c : Appender) (o : Oracles) : Outcome (Image × Appender) × List LogEvent :=
  if c.mediaType ≠ "" then
    (.fatal "contain.Base() has already been invoked",
     [.fatalMsg "contain.Base() has already been invoked"])
  else
    match o.pull with
    | .error e => (.err (.wrapped ("pulling " ++ refStr c.baseRef) e), [])
    | .ok base =>
      match o.mediaTypeOf base with
      | .error e => (.err (.wrapped "getting base image media type" e), [])
      | .ok mt =>
        let lt := if mt = OCIManifestSchema1 then OCILayer else DockerLayer
        (.ok (base, { c with mediaType := mt, layerType := lt }), [])

/-- LayerType (part_001 lines 202-207): zap Fatal when the layer type has not
been set by a prior base() call, otherwise the stored layer type. -/
def LayerType (c : Appender) : Outcome MediaType × List LogEvent :=
  if c.layerType = "" then
    (.fatal "Can not return media type before Base has been called",
     [.fatalMsg "Can not return media type before Base has been called"])
  else (.ok c.layerType, [])

/-- The OCI base-image provenance annotation key for the digest
(specsv1.AnnotationBaseImageDigest). -/
def annBaseImageDigest : String := "org.opencontainers.image.base.digest"

/-- The OCI base-image provenance annotation key for the name
(specsv1.AnnotationBaseImageName). -/
def annBaseImageName : String := "org.opencontainers.image.base.name"

/-- Models mutate.AppendLayers from go-containerregistry v0.13.0: rejects a
nil layer, otherwise yields a new image with the supplied layers appended in
call order and all other manifest fields untouched. -/
def appendLayers (img : Image) (layers : List ImgLayer) : Except GoError Image :=
  if layers.any (fun l => l.isNone) then .error (.goError "unable to add a nil layer")
  else .ok { img with layers := img.layers ++ layers }

/-- annotate (part_001 lines 140-153): builds the annotation map with the
base digest's string form under the digest key, adds the name key formatted
as slash repository colon tag exactly when the receiver's baseRef is a
name.Tag (the Go type assertion), and applies mutate.Annotations. -/
def annotate (c : Appender) (image : Image) (baseDigest : Hash) : Image :=
  let a := [(annBaseImageDigest, baseDigest.str)]
  let a :=
    match c.baseRef with
    | some (.tag repo t) => a ++ [(annBaseImageName, "/" ++ repo ++ ":" ++ t)]
    | _ => a
  { image with annots := mergeAnns image.annots a }

/-- One v1.Update received on the progress channel, together with the
time.Now() value (in nanoseconds) observed when the orchestrator processes
it. The code calls time.Now() twice for an emitted progress line (the check
and the re-arm); the model uses the single per-update timestamp for both. -/
structure Update where
  complete : Int
  total : Int
  error : Option GoError
  time : Nat
deriving DecidableEq, Repr

/-- time.ParseDuration of the constant progressReportMinInterval, one second,
in nanoseconds (the parse cannot fail on this literal, so the Fatal branch at
part_001 line 164 is dead). -/
def debounceNs : Nat := 1000000000

/-- The drain loop of push (part_001 lines 182-197). For each update: an
error update is logged, forwarded as the short-circuit result and stops the
loop; an update with complete equal to total logs a completion line
unconditionally; otherwise a progress line is logged only when the current
time is strictly after nextProgress, which is then re-armed to the current
time plus the debounce interval. Returns the log lines paired with the time
each was emitted, and the short-circuited error if any. -/
def drain : List Update → Nat → List (LogEvent × Nat) × Option GoError
  | [], _ => ([], none)
  | ⟨_, _, some e, tm⟩ :: _, _ => ([(.errorE "push update" e, tm)], some e)
  | ⟨cm, tt, none, tm⟩ :: rest, np =>
    if cm = tt then
      let r := drain rest np
      ((.infoPushed cm tt, tm) :: r.1, r.2)
    else if np < tm then
      let r := drain rest (tm + debounceNs)
      ((.infoPush cm tt, tm) :: r.1, r.2)
    else
      drain rest np

/-- The concurrency environment of one push: the update stream the write
goroutine sends on the progress channel (capacity 200), the value
remote.Write returns and sends on the result channel (capacity 2, nil on
success), whether that send entered the result channel before the
orchestrator's own short-circuit send, and the time.Now() value at part_001
line 180. -/
structure PushEnv where
  updates : List Update
  writeResult : Option GoError
  writerFirst : Bool
  startTime : Nat
deriving Repr

/-- push (part_001 lines 155-200). Reads the image media type (returning its
error unwrapped), logs the pushing header, drains the progress channel, and
finally returns the first value read from the result channel: when the loop
ended because the channel closed the writer has finished, so that value is
remote.Write's own result; when the loop short-circuited on an error update,
it is remote.Write's result if the writer's send was enqueued first and the
update's error otherwise. -/
def push (_c : Appender) (image : Image) (o : Oracles) (env : PushEnv) :
    Option GoError × List (LogEvent × Nat) :=
  match o.mediaTypeOf image with
  | .error e => (some e, [])
  | .ok _mt =>
    let r := drain env.updates (env.startTime + debounceNs)
    let result :=
      match r.2 with
      | none => env.writeResult
      | some e => if env.writerFirst then env.writeResult else some e
    (result, (.infoMsg "pushing", env.startTime) :: r.1)

/-- The platform warnings Append emits (part_001 lines 97-102): one warning
when the configured platform list has several entries, one when it has
exactly one; the list is used for nothing else. -/
def platformWarns (ps : List String) : List LogEvent :=
  (if ps.length > 1 then
    [LogEvent.warnMsg "unsupported multiple platforms, falling back to all"]
  else []) ++
  (if ps.length = 1 then
    [LogEvent.warnMsg "unsupported single platform, falling back to all"]
  else [])

/-- The tail of Append after base resolution (part_001 lines 109-136):
computes the base digest — logging but NOT returning a digest failure, so the
zero hash is used for the annotation — appends the layers, annotates (the
error check after annotate at line 119 is dead code: err is necessarily nil
there), computes the result digest, pushes, and returns the result digest on
success. -/
def appendRest (c' : Appender) (base : Image) (o : Oracles) (env : PushEnv)
    (layers : List ImgLayer) : Outcome Hash × List LogEvent :=
  let dstep :=
    match o.digestOf base with
    | .error e => (Hash.zero, [LogEvent.errorE "Failed to get base image digest" e])
    | .ok d => (d, ([] : List LogEvent))
  match appendLayers base layers with
  | .error e => (.err e, dstep.2 ++ [.errorE "Failed to append layers" e])
  | .ok img0 =>
    let img := annotate c' img0 dstep.1
    match o.digestOf img with
    | .error e => (.err e, dstep.2 ++ [.errorE "Failed to get result image digest" e])
    | .ok imgDigest =>
      let p := push c' img o env
      match p.1 with
      | some e =>
          (.err e, dstep.2 ++ p.2.map Prod.fst ++ [.errorE "Failed to push" e])
      | none =>
          (.ok imgDigest, dstep.2 ++ p.2.map Prod.fst ++ [.infoMsg "pushed"])

/-- Append (part_001 lines 94-137). Warns (only) about any configured
platform list, resolves the base, and hands over to appendRest; the log
stream is the platform warnings, then base resolution logs, then the rest. -/
def Append (c : Appender) (o : Oracles) (env : PushEnv) (layers : List ImgLayer) :
    Outcome Hash × List LogEvent :=
  let warns := platformWarns c.config.Platforms
  match baseStep c o with
  | (.ok (base, c'), bls) =>
    let r := appendRest c' base o env layers
    (r.1, warns ++ bls ++ r.2)
  | (.err e, bls) => (.err e, warns ++ bls ++ [.errorE "Failed to get base image" e])
  | (.fatal m, bls) => (.fatal m, warns ++ bls)
  | (.panicked m, bls) => (.panicked m, warns ++ bls)

/-! Concrete sample values used by witnesses and counterexamples. -/

/-- A sample configuration. -/
def sampleConfig : ContainConfig :=
  { Base := "busybox:latest", Tag := "localhost:22500/img:test", Platforms := [] }

/-- A sample parsed tag reference for the base. -/
def sampleBaseRef : Reference := .tag "library/busybox" "latest"

/-- A freshly constructed Appender (both parses succeeded). -/
def freshAppender : Appender :=
  { config := sampleConfig, baseRef := some sampleBaseRef,
    tagRef := some (.tag "img" "test"), mediaType := "", layerType := "" }

/-- A sample OCI base image with one layer and no annotation entries. -/
def sampleImage : Image :=
  { mediaType := OCIManifestSchema1, layers := [some "layer0"],
    annots := [], config := "cfgblob" }

/-- Oracles on which every collaborator call succeeds. -/
def okOracles : Oracles :=
  { pull := .ok sampleImage, mediaTypeOf := fun i => .ok i.mediaType,
    digestOf := fun _ => .ok ⟨"sha256", "abc"⟩ }

/-- A failed name.ParseReference result. -/
def badParse : Except GoError Reference := .error (.goError "could not parse reference")

/-- The Appender state after one successful base resolution of sampleImage. -/
def resolvedAppender : Appender :=
  { freshAppender with mediaType := OCIManifestSchema1, layerType := OCILayer }

/-- Whether a timed log line is a non-terminal progress line
(an Info "push" line from the drain loop). -/
def isProgressLine : LogEvent × Nat → Bool
  | (.infoPush _ _, _) => true
  | _ => false

/-- Whether a timed log line is a terminal completion line
(an Info "pushed" line with completed and total from the drain loop). -/
def isTerminalLine : LogEvent × Nat → Bool
  | (.infoPushed _ _, _) => true
  | _ => false

/-- Replace the configured platform list of an Appender. -/
def withPlatforms (c : Appender) (ps : List String) : Appender :=
  { c with config := { c.config with Platforms := ps } }

/-- A push environment where the registry write succeeds immediately with no
progress updates. -/
def quietEnv : PushEnv :=
  { updates := [], writeResult := none, writerFirst := false, startTime := 0 }

/-- A push environment where an error update short-circuits the drain before
the writer's own, different, error is enqueued on the result channel. -/
def raceEnv : PushEnv :=
  { updates := [{ complete := 0, total := 10, error := some (.goError "update error"),
                  time := 0 }],
    writeResult := some (.goError "write error"), writerFirst := false, startTime := 0 }

/-- A push environment whose update stream holds a single non-error,
non-terminal progress update. -/
def oneProgressEnv : PushEnv :=
  { updates := [{ complete := 5, total := 10, error := none, time := 0 }],
    writeResult := none, writerFirst := false, startTime := 0 }

/-- A push environment with two non-terminal updates and one terminal update,
all error-free: the first progress update is emitted (past the debounce), the
second is debounced, the terminal one completes the transfer. -/
def normalPushEnv : PushEnv :=
  { updates :=
      [{ complete := 5, total := 10, error := none, time := 1500000000 },
       { complete := 7, total := 10, error := none, time := 1600000000 },
       { complete := 10, total := 10, error := none, time := 2000000000 }],
    writeResult := none, writerFirst := false, startTime := 0 }

/-- Oracles where computing the digest of the base image fails but every
other collaborator call succeeds. -/
def baseDigestFailOracles : Oracles :=
  { pull := .ok sampleImage, mediaTypeOf := fun i => .ok i.mediaType,
    digestOf := fun i =>
      if i = sampleImage then .error (.goError "digest failure")
      else .ok ⟨"sha256", "def"⟩ }

/-- An Appender whose base reference is digest-pinned. -/
def digestPinnedAppender : Appender :=
  { config := sampleConfig, baseRef := some (.digest "library/busybox" "sha256:aaa"),
    tagRef := some (.tag "img" "test"), mediaType := "", layerType := "" }

/-- A base image that already carries a base-image-name annotation of its
own (as images built from another base commonly do). -/
def preAnnotatedImage : Image :=
  { mediaType := OCIManifestSchema1, layers := [],
    annots := [(annBaseImageName, "/library/alpine:3")], config := "cfgblob" }

/-- sampleImage with one extra layer appended. -/
def appendedImage : Image :=
  { sampleImage with layers := sampleImage.layers ++ [some "l1"] }

/-- The fresh sample Appender with a single configured platform. -/
def platformAppender : Appender := withPlatforms freshAppender ["linux/amd64"]

/-- C10: every call to Options unconditionally invokes a fatal log
(terminating the process) and never returns normally, regardless of the
Appender's state. -/
theorem options_always_fatal (c : Appender) :
    Options c = (.fatal "TODO how?", [.fatalMsg "TODO how?"]) := rfl

/-- C8: appending zero layers never errors and yields an image whose layer
list is identical to the base's; the subsequent annotation step changes only
the annotation entries, leaving layers, media type and config untouched. -/
theorem append_zero_layers_identity (c : Appender) (base : Image) (d : Hash) :
    appendLayers base [] = .ok base ∧
    (annotate c base d).layers = base.layers ∧
    (annotate c base d).mediaType = base.mediaType ∧
    (annotate c base d).config = base.config := by
  refine ⟨?_, rfl, rfl, rfl⟩
  simp [appendLayers]

/-- C1: the code does not fail construction on an invalid reference. With an
unparsable destination string, New logs the failure and returns the
half-initialized Appender together with a nil error; with an unparsable base
string, it panics on the nil-reference debug log. Neither path returns an
InvalidReference error. -/
theorem new_swallows_invalid_reference :
    (New sampleConfig (.ok sampleBaseRef) badParse).1
      = .ok { config := sampleConfig, baseRef := some sampleBaseRef,
              tagRef := none, mediaType := "", layerType := "" } ∧
    (New sampleConfig badParse (.ok (.tag "img" "test"))).1
      = .panicked "nil pointer dereference: baseRef.String()" :=
  ⟨rfl, rfl⟩

/-- C3: after a successful base resolution, the stored layer type equals the
OCI layer media type exactly when the fetched manifest media type is the OCI
manifest type, and equals the Docker layer media type otherwise; the fetched
media type itself is persisted. -/
theorem base_layer_type_pairing (c : Appender) (o : Oracles) (base : Image)
    (mt : MediaType) (hfresh : c.mediaType = "") (hpull : o.pull = .ok base)
    (hmt : o.mediaTypeOf base = .ok mt) :
    ∃ c', (baseStep c o).1 = .ok (base, c') ∧ c'.mediaType = mt ∧
      (c'.layerType = OCILayer ↔ mt = OCIManifestSchema1) ∧
      (mt ≠ OCIManifestSchema1 → c'.layerType = DockerLayer) := by
  refine ⟨{ c with
      mediaType := mt,
      layerType := if mt = OCIManifestSchema1 then OCILayer else DockerLayer },
    ?_, rfl, ?_, ?_⟩
  · simp [baseStep, hfresh, hpull, hmt]
  · show (if mt = OCIManifestSchema1 then OCILayer else DockerLayer) = OCILayer
        ↔ mt = OCIManifestSchema1
    constructor
    · intro h
      by_contra hn
      rw [if_neg hn] at h
      exact absurd h (by decide)
    · intro h
      rw [if_pos h]
  · intro h
    show (if mt = OCIManifestSchema1 then OCILayer else DockerLayer) = DockerLayer
    exact if_neg h

/-- C3 witness at a concrete OCI-manifest base. -/
theorem base_layer_type_pairing_witness :
    ∃ c', (baseStep freshAppender okOracles).1 = .ok (sampleImage, c') ∧
      c'.mediaType = OCIManifestSchema1 ∧
      (c'.layerType = OCILayer ↔ OCIManifestSchema1 = OCIManifestSchema1) ∧
      (OCIManifestSchema1 ≠ OCIManifestSchema1 → c'.layerType = DockerLayer) :=
  base_layer_type_pairing freshAppender okOracles sampleImage OCIManifestSchema1
    rfl rfl rfl

/-- C5: the Appender obeys the unresolved/resolved two-state machine: before
base resolution, LayerType is a misuse fatal; after one successful resolution
whose fetched media type is a nonempty string, a second base() call is a
misuse fatal regardless of the oracles supplied to it (so it never silently
re-pulls), while LayerType now succeeds. -/
theorem resolve_once_state_machine (c c' : Appender) (o o₂ : Oracles)
    (base : Image) (mt : MediaType)
    (hfresh : c.mediaType = "") (hlt : c.layerType = "")
    (hpull : o.pull = .ok base) (hmt : o.mediaTypeOf base = .ok mt)
    (hne : mt ≠ "")
    (hstep : (baseStep c o).1 = .ok (base, c')) :
    (LayerType c).1 = .fatal "Can not return media type before Base has been called" ∧
    (baseStep c' o₂).1 = .fatal "contain.Base() has already been invoked" ∧
    (LayerType c').1 = .ok c'.layerType := by
  have h1 : (baseStep c o).1
      = .ok (base, { c with
          mediaType := mt,
          layerType := if mt = OCIManifestSchema1 then OCILayer else DockerLayer }) := by
    simp [baseStep, hfresh, hpull, hmt]
  rw [h1] at hstep
  have hc' : c' = { c with
      mediaType := mt,
      layerType := if mt = OCIManifestSchema1 then OCILayer else DockerLayer } := by
    simp only [Outcome.ok.injEq, Prod.mk.injEq, true_and] at hstep
    exact hstep.symm
  subst hc'
  refine ⟨by simp [LayerType, hlt], ?_, ?_⟩
  · simp [baseStep, hne]
  · have hne' : (if mt = OCIManifestSchema1 then OCILayer else DockerLayer) ≠ "" := by
      split
      · decide
      · decide
    simp [LayerType, hne']

/-- C5 witness at the concrete fresh Appender and its resolved state. -/
theorem resolve_once_state_machine_witness :
    (LayerType freshAppender).1
      = .fatal "Can not return media type before Base has been called" ∧
    (baseStep resolvedAppender okOracles).1
      = .fatal "contain.Base() has already been invoked" ∧
    (LayerType resolvedAppender).1 = .ok resolvedAppender.layerType :=
  resolve_once_state_machine freshAppender resolvedAppender okOracles okOracles
    sampleImage OCIManifestSchema1 rfl rfl rfl rfl (by decide) (by decide)

/-- Lookup on an empty entry list. -/
lemma lookupAnn_nil (k : String) : lookupAnn [] k = none := rfl

/-- Lookup on a cons entry list. -/
lemma lookupAnn_cons (k' v k : String) (rest : List (String × String)) :
    lookupAnn ((k', v) :: rest) k = if k' = k then some v else lookupAnn rest k := rfl

/-- Lookup distributes over appended entry lists, preferring the left list. -/
lemma lookupAnn_append (xs ys : List (String × String)) (k : String) :
    lookupAnn (xs ++ ys) k = (lookupAnn xs k).elim (lookupAnn ys k) some := by
  induction xs with
  | nil => simp [lookupAnn]
  | cons p rest ih =>
    obtain ⟨k', v⟩ := p
    rw [List.cons_append, lookupAnn_cons, lookupAnn_cons]
    by_cases h : k' = k
    · simp [h]
    · simp [h, ih]

/-- Lookup in the entries kept by the merge filter: unchanged for keys the
new entries do not bind, none for keys they do bind. -/
lemma lookupAnn_filterKept (old new : List (String × String)) (k : String) :
    lookupAnn (old.filter fun p => (lookupAnn new p.1).isNone) k
      = if (lookupAnn new k).isNone then lookupAnn old k else none := by
  induction old with
  | nil => simp [lookupAnn]
  | cons p rest ih =>
    obtain ⟨k', v⟩ := p
    by_cases hk : k' = k
    · subst hk
      by_cases hn : (lookupAnn new k').isNone
      · rw [List.filter_cons_of_pos (by simpa using hn)]
        rw [lookupAnn_cons, if_pos rfl, if_pos hn, lookupAnn_cons, if_pos rfl]
      · rw [List.filter_cons_of_neg (by simpa using hn), ih, if_neg hn, if_neg hn]
    · by_cases hn : (lookupAnn new k').isNone
      · rw [List.filter_cons_of_pos (by simpa using hn)]
        rw [lookupAnn_cons, if_neg hk, ih, lookupAnn_cons]
        rw [if_neg hk]
      · rw [List.filter_cons_of_neg (by simpa using hn), ih, lookupAnn_cons]
        rw [if_neg hk]

/-- Lookup after the annotation merge: new entries win, otherwise the old
entry (if any) is preserved. -/
lemma lookupAnn_merge (old new : List (String × String)) (k : String) :
    lookupAnn (mergeAnns old new) k
      = (lookupAnn new k).elim (lookupAnn old k) some := by
  rw [mergeAnns, lookupAnn_append, lookupAnn_filterKept]
  cases h : lookupAnn new k with
  | none => cases ho : lookupAnn old k <;> simp [h, ho]
  | some v => simp [h]

/-- The two OCI base-image annotation keys are distinct. -/
lemma annKeys_ne : annBaseImageDigest ≠ annBaseImageName := by decide

/-- C4 counterexample: with a digest-pinned base reference and a base image
that already carries a base-image-name annotation of its own, the annotated
image still has a base-image-name annotation — it is not absent. -/
theorem annotate_digest_pinned_name_present :
    digestPinnedAppender.baseRef = some (.digest "library/busybox" "sha256:aaa") ∧
    lookupAnn (annotate digestPinnedAppender preAnnotatedImage ⟨"sha256", "bbb"⟩).annots
      annBaseImageName = some "/library/alpine:3" := by
  exact ⟨rfl, by decide⟩

/-- C4 amended: annotate always sets the base-image-digest annotation to the
string form of the base digest; it sets the base-image-name annotation,
formatted as slash repository colon tag, exactly when the base reference is a
tag reference; when it is not a tag reference the name annotation of the
result is whatever the input image already carried (so it is absent for
digest-pinned bases only if the base image carried none); the returned image
differs from the input only in its annotation entries. -/
theorem annotate_digest_and_name (c : Appender) (img : Image) (d : Hash)
    (repo t : String) :
    lookupAnn (annotate c img d).annots annBaseImageDigest = some d.str ∧
    (c.baseRef = some (.tag repo t) →
      lookupAnn (annotate c img d).annots annBaseImageName
        = some ("/" ++ repo ++ ":" ++ t)) ∧
    (isTagRef c.baseRef = false →
      lookupAnn (annotate c img d).annots annBaseImageName
        = lookupAnn img.annots annBaseImageName) ∧
    (annotate c img d).layers = img.layers ∧
    (annotate c img d).mediaType = img.mediaType ∧
    (annotate c img d).config = img.config := by
  cases hbr : c.baseRef with
  | none =>
    simp only [annotate, hbr]
    refine ⟨?_, ?_, fun _ => ?_, trivial, trivial, trivial⟩
    · rw [lookupAnn_merge, lookupAnn_cons, if_pos rfl]
      rfl
    · intro h
      exact Option.noConfusion h
    · rw [lookupAnn_merge, lookupAnn_cons, if_neg annKeys_ne]
      rfl
  | some r =>
    cases r with
    | tag repo' t' =>
      simp only [annotate, hbr]
      refine ⟨?_, ?_, ?_, trivial, trivial, trivial⟩
      · rw [lookupAnn_merge, List.singleton_append, lookupAnn_cons, if_pos rfl]
        rfl
      · intro h
        injection h with h2
        injection h2 with hr ht
        subst hr
        subst ht
        rw [lookupAnn_merge, List.singleton_append, lookupAnn_cons,
          if_neg annKeys_ne, lookupAnn_cons, if_pos rfl]
        rfl
      · intro h
        simp [isTagRef] at h
    | digest repo' dg =>
      simp only [annotate, hbr]
      refine ⟨?_, ?_, fun _ => ?_, trivial, trivial, trivial⟩
      · rw [lookupAnn_merge, lookupAnn_cons, if_pos rfl]
        rfl
      · intro h
        injection h with h2
        exact Reference.noConfusion h2
      · rw [lookupAnn_merge, lookupAnn_cons, if_neg annKeys_ne]
        rfl

/-- C4 witness: the tag-based sample appender gets the digest annotation in
string form and the base-image-name annotation formatted from repository and
tag. -/
theorem annotate_digest_and_name_witness :
    lookupAnn (annotate freshAppender sampleImage ⟨"sha256", "abc"⟩).annots
      annBaseImageDigest = some "sha256:abc" ∧
    freshAppender.baseRef = some (.tag "library/busybox" "latest") ∧
    lookupAnn (annotate freshAppender sampleImage ⟨"sha256", "abc"⟩).annots
      annBaseImageName = some "/library/busybox:latest" := by
  refine ⟨?_, rfl, ?_⟩
  · exact (annotate_digest_and_name freshAppender sampleImage ⟨"sha256", "abc"⟩
      "library/busybox" "latest").1
  · exact (annotate_digest_and_name freshAppender sampleImage ⟨"sha256", "abc"⟩
      "library/busybox" "latest").2.1 rfl

/-- baseStep ignores the configured platform list except for carrying the
config inside the updated instance. -/
lemma baseStep_platforms_indep (c : Appender) (ps : List String) (o : Oracles) :
    baseStep (withPlatforms c ps) o
      = (match baseStep c o with
         | (.ok (b, c2), ls) => (.ok (b, withPlatforms c2 ps), ls)
         | (.err e, ls) => (.err e, ls)
         | (.fatal m, ls) => (.fatal m, ls)
         | (.panicked m, ls) => (.panicked m, ls)) := by
  by_cases h : c.mediaType = ""
  · cases hp : o.pull with
    | error e => simp [baseStep, withPlatforms, refStr, h, hp]
    | ok b =>
      cases hm : o.mediaTypeOf b with
      | error e => simp [baseStep, withPlatforms, h, hp, hm]
      | ok mt => simp [baseStep, withPlatforms, h, hp, hm]
  · simp [baseStep, withPlatforms, h]

/-- appendRest reads its Appender argument only through the base reference,
so it ignores the configured platform list. -/
lemma appendRest_platforms_indep (c2 : Appender) (ps : List String) (base : Image)
    (o : Oracles) (env : PushEnv) (layers : List ImgLayer) :
    appendRest (withPlatforms c2 ps) base o env layers
      = appendRest c2 base o env layers := rfl

/-- The build outcome of Append does not depend on the configured platform
list. -/
lemma append_fst_platforms_indep (c : Appender) (ps : List String) (o : Oracles)
    (env : PushEnv) (layers : List ImgLayer) :
    (Append (withPlatforms c ps) o env layers).1 = (Append c o env layers).1 := by
  unfold Append
  rw [baseStep_platforms_indep]
  rcases baseStep c o with ⟨out, ls⟩
  cases out with
  | ok p =>
    rcases p with ⟨b, c2⟩
    simp only [appendRest_platforms_indep]
  | err e => rfl
  | fatal m => rfl
  | panicked m => rfl

/-- Every platform warning is in the Append run's log. -/
lemma append_logs_platform_warns (c : Appender) (o : Oracles) (env : PushEnv)
    (layers : List ImgLayer) (ev : LogEvent)
    (hev : ev ∈ platformWarns c.config.Platforms) :
    ev ∈ (Append c o env layers).2 := by
  unfold Append
  rcases baseStep c o with ⟨out, ls⟩
  cases out with
  | ok p =>
    rcases p with ⟨b, c2⟩
    exact List.mem_append_left _ (List.mem_append_left _ hev)
  | err e => exact List.mem_append_left _ (List.mem_append_left _ hev)
  | fatal m => exact List.mem_append_left _ hev
  | panicked m => exact List.mem_append_left _ hev

/-- C9: for every nonempty configured platform list, Append logs the matching
unsupported-platform warning and the build outcome is exactly what it would
be with an empty platform list — the platform list never aborts the build and
never filters what is published. -/
theorem platforms_warn_and_proceed (c : Appender) (o : Oracles) (env : PushEnv)
    (layers : List ImgLayer) (hp : c.config.Platforms ≠ []) :
    (Append c o env layers).1 = (Append (withPlatforms c []) o env layers).1 ∧
    (c.config.Platforms.length = 1 →
      LogEvent.warnMsg "unsupported single platform, falling back to all"
        ∈ (Append c o env layers).2) ∧
    (1 < c.config.Platforms.length →
      LogEvent.warnMsg "unsupported multiple platforms, falling back to all"
        ∈ (Append c o env layers).2) := by
  refine ⟨(append_fst_platforms_indep c [] o env layers).symm, ?_, ?_⟩
  · intro h1
    refine append_logs_platform_warns c o env layers _ ?_
    simp [platformWarns, h1]
  · intro h2
    have h1 : ¬c.config.Platforms.length = 1 := by omega
    refine append_logs_platform_warns c o env layers _ ?_
    simp [platformWarns, h2, h1]

/-- C9 witness: a single-entry platform list warns and leaves the build
outcome unchanged. -/
theorem platforms_warn_and_proceed_witness :
    (Append platformAppender okOracles quietEnv []).1
      = (Append (withPlatforms platformAppender []) okOracles quietEnv []).1 ∧
    (platformAppender.config.Platforms.length = 1 →
      LogEvent.warnMsg "unsupported single platform, falling back to all"
        ∈ (Append platformAppender okOracles quietEnv []).2) ∧
    (1 < platformAppender.config.Platforms.length →
      LogEvent.warnMsg "unsupported multiple platforms, falling back to all"
        ∈ (Append platformAppender okOracles quietEnv []).2) :=
  platforms_warn_and_proceed platformAppender okOracles quietEnv [] (by decide)

/-- C2 amended: push returns the first value enqueued on the result channel —
the registry write's own result when the drain loop ends by channel close,
and on a short-circuit the write's result exactly when the writer's send was
enqueued first, the update's error otherwise; on a successful run Append
returns the digest computed for the annotated image. -/
theorem push_first_enqueued_and_success_digest
    (c cR : Appender) (imgP base imgA : Image) (o : Oracles) (env : PushEnv)
    (mt : MediaType) (e : GoError) (bd imgDigest : Hash) (layers : List ImgLayer)
    (hmt : o.mediaTypeOf imgP = .ok mt)
    (hbase : (baseStep c o).1 = .ok (base, cR))
    (hbd : o.digestOf base = .ok bd)
    (happ : appendLayers base layers = .ok imgA)
    (himgd : o.digestOf (annotate cR imgA bd) = .ok imgDigest)
    (hpush : (push cR (annotate cR imgA bd) o env).1 = none) :
    ((drain env.updates (env.startTime + debounceNs)).2 = none →
      (push c imgP o env).1 = env.writeResult) ∧
    ((drain env.updates (env.startTime + debounceNs)).2 = some e →
      (push c imgP o env).1 = if env.writerFirst then env.writeResult else some e) ∧
    (Append c o env layers).1 = .ok imgDigest := by
  refine ⟨?_, ?_, ?_⟩
  · intro hdr
    simp [push, hmt, hdr]
  · intro hdr
    simp [push, hmt, hdr]
  · have hbfull : baseStep c o = (.ok (base, cR), (baseStep c o).2) := by
      rw [← hbase]
    unfold Append
    rw [hbfull]
    show (appendRest cR base o env layers).1 = .ok imgDigest
    simp [appendRest, hbd, happ, himgd, hpush]

/-- C2 witness: a fully successful concrete run. -/
theorem push_first_enqueued_and_success_digest_witness :
    ((drain quietEnv.updates (quietEnv.startTime + debounceNs)).2 = none →
      (push freshAppender sampleImage okOracles quietEnv).1 = quietEnv.writeResult) ∧
    ((drain quietEnv.updates (quietEnv.startTime + debounceNs)).2 = some (.goError "x") →
      (push freshAppender sampleImage okOracles quietEnv).1
        = if quietEnv.writerFirst then quietEnv.writeResult else some (.goError "x")) ∧
    (Append freshAppender okOracles quietEnv [some "l1"]).1 = .ok ⟨"sha256", "abc"⟩ :=
  push_first_enqueued_and_success_digest freshAppender resolvedAppender sampleImage
    sampleImage appendedImage okOracles quietEnv OCIManifestSchema1 (.goError "x")
    ⟨"sha256", "abc"⟩ ⟨"sha256", "abc"⟩ [some "l1"] rfl (by decide) rfl rfl
    rfl rfl

/-- C2 counterexample: when an error update short-circuits the drain before
the writer's own send is enqueued, push reports the update's error, which is
not the registry write's own error. -/
theorem push_reports_update_error :
    (push resolvedAppender sampleImage okOracles raceEnv).1
      = some (.goError "update error") ∧
    raceEnv.writeResult = some (.goError "write error") ∧
    GoError.goError "update error" ≠ GoError.goError "write error" := by
  refine ⟨by decide, rfl, by decide⟩

/-- C6: a failure computing the base image's digest inside Append is logged
and then swallowed: with every other collaborator call succeeding, Append
still returns success, and the provenance annotation records the string form
of the zero digest (a bare colon), instead of the digest error being wrapped
and returned to the caller. -/
theorem append_swallows_base_digest_error :
    (Append freshAppender baseDigestFailOracles quietEnv []).1 = .ok ⟨"sha256", "def"⟩ ∧
    LogEvent.errorE "Failed to get base image digest" (.goError "digest failure")
      ∈ (Append freshAppender baseDigestFailOracles quietEnv []).2 ∧
    lookupAnn (annotate resolvedAppender sampleImage Hash.zero).annots annBaseImageDigest
      = some ":" := by
  refine ⟨by decide, by decide, by decide⟩

/-- Every non-terminal progress line the drain loop emits is strictly later
than the nextProgress bound in force when the loop starts. -/
lemma drain_progress_time_lb (updates : List Update) (np : Nat) :
    ∀ p ∈ ((drain updates np).1.filter isProgressLine), np < p.2 := by
  induction updates generalizing np with
  | nil =>
    intro p hp
    simp [drain] at hp
  | cons u rest ih =>
    intro p hp
    obtain ⟨cm, tt, er, tm⟩ := u
    cases er with
    | some e =>
      simp [drain, isProgressLine] at hp
    | none =>
      simp only [drain] at hp
      by_cases hc : cm = tt
      · rw [if_pos hc] at hp
        rw [show (((LogEvent.infoPushed cm tt, tm) :: (drain rest np).1,
            (drain rest np).2) : List (LogEvent × Nat) × Option GoError).1
            = (LogEvent.infoPushed cm tt, tm) :: (drain rest np).1 from rfl] at hp
        rw [List.filter_cons_of_neg (by simp [isProgressLine])] at hp
        exact ih np p hp
      · rw [if_neg hc] at hp
        by_cases ht : np < tm
        · rw [if_pos ht] at hp
          rw [show (((LogEvent.infoPush cm tt, tm)
              :: (drain rest (tm + debounceNs)).1,
              (drain rest (tm + debounceNs)).2)
              : List (LogEvent × Nat) × Option GoError).1
              = (LogEvent.infoPush cm tt, tm) :: (drain rest (tm + debounceNs)).1
              from rfl] at hp
          rw [List.filter_cons_of_pos (by simp [isProgressLine])] at hp
          rcases List.mem_cons.mp hp with h | h
          · subst h
            exact ht
          · have := ih (tm + debounceNs) p h
            omega
        · rw [if_neg ht] at hp
          exact ih np p hp

/-- Successive non-terminal progress lines emitted by the drain loop are more
than the debounce interval apart. -/
lemma drain_progress_pairwise (updates : List Update) (np : Nat) :
    ((drain updates np).1.filter isProgressLine).Pairwise
      (fun a b => a.2 + debounceNs < b.2) := by
  induction updates generalizing np with
  | nil => simp [drain]
  | cons u rest ih =>
    obtain ⟨cm, tt, er, tm⟩ := u
    cases er with
    | some e => simp [drain, isProgressLine]
    | none =>
      simp only [drain]
      by_cases hc : cm = tt
      · rw [if_pos hc]
        rw [show (((LogEvent.infoPushed cm tt, tm) :: (drain rest np).1,
            (drain rest np).2) : List (LogEvent × Nat) × Option GoError).1
            = (LogEvent.infoPushed cm tt, tm) :: (drain rest np).1 from rfl]
        rw [List.filter_cons_of_neg (by simp [isProgressLine])]
        exact ih np
      · rw [if_neg hc]
        by_cases ht : np < tm
        · rw [if_pos ht]
          rw [show (((LogEvent.infoPush cm tt, tm)
              :: (drain rest (tm + debounceNs)).1,
              (drain rest (tm + debounceNs)).2)
              : List (LogEvent × Nat) × Option GoError).1
              = (LogEvent.infoPush cm tt, tm) :: (drain rest (tm + debounceNs)).1
              from rfl]
          rw [List.filter_cons_of_pos (by simp [isProgressLine])]
          refine List.Pairwise.cons ?_ (ih (tm + debounceNs))
          intro b hb
          exact drain_progress_time_lb rest (tm + debounceNs) b hb
        · rw [if_neg ht]
          exact ih np

/-- On an error-free update stream the drain loop logs exactly one terminal
completion line per update whose completed count equals its total. -/
lemma drain_terminal_count (updates : List Update) (np : Nat)
    (hne : ∀ u ∈ updates, u.error = none) :
    ((drain updates np).1.filter isTerminalLine).length
      = (updates.filter (fun u => u.complete = u.total)).length := by
  induction updates generalizing np with
  | nil => simp [drain]
  | cons u rest ih =>
    have hu : u.error = none := hne u (List.mem_cons_self u rest)
    have hrest : ∀ v ∈ rest, v.error = none :=
      fun v hv => hne v (List.mem_cons_of_mem u hv)
    obtain ⟨cm, tt, er, tm⟩ := u
    cases er with
    | some e => exact absurd hu (by simp)
    | none =>
      simp only [drain]
      by_cases hc : cm = tt
      · rw [if_pos hc]
        rw [show (((LogEvent.infoPushed cm tt, tm) :: (drain rest np).1,
            (drain rest np).2) : List (LogEvent × Nat) × Option GoError).1
            = (LogEvent.infoPushed cm tt, tm) :: (drain rest np).1 from rfl]
        rw [List.filter_cons_of_pos (by simp [isTerminalLine])]
        simp [List.filter_cons, hc, List.length_cons, ih np hrest]
      · rw [if_neg hc]
        by_cases ht : np < tm
        · rw [if_pos ht]
          rw [show (((LogEvent.infoPush cm tt, tm)
              :: (drain rest (tm + debounceNs)).1,
              (drain rest (tm + debounceNs)).2)
              : List (LogEvent × Nat) × Option GoError).1
              = (LogEvent.infoPush cm tt, tm) :: (drain rest (tm + debounceNs)).1
              from rfl]
          rw [List.filter_cons_of_neg (by simp [isTerminalLine])]
          simp [List.filter_cons, hc, ih (tm + debounceNs) hrest]
        · rw [if_neg ht]
          simp [List.filter_cons, hc, ih np hrest]

/-- A list whose successive elements are more than debounceNs apart has at
most one element inside any half-open window of length debounceNs. -/
lemma window_count_le_one (l : List (LogEvent × Nat)) (w : Nat)
    (hl : l.Pairwise (fun a b => a.2 + debounceNs < b.2)) :
    (l.filter (fun p => w ≤ p.2 ∧ p.2 < w + debounceNs)).length ≤ 1 := by
  induction l with
  | nil => simp
  | cons a t ih =>
    rw [List.pairwise_cons] at hl
    obtain ⟨ha, ht⟩ := hl
    by_cases hw : w ≤ a.2 ∧ a.2 < w + debounceNs
    · have hnone : t.filter (fun p => w ≤ p.2 ∧ p.2 < w + debounceNs) = [] := by
        rw [List.filter_eq_nil_iff]
        intro b hb
        have := ha b hb
        simp only [decide_eq_true_eq, not_and, not_lt]
        intro _
        omega
      rw [List.filter_cons_of_pos (by simpa using hw), hnone]
      simp
    · rw [List.filter_cons_of_neg (by simpa using hw)]
      exact ih ht

/-- C7 counterexample: a push whose error-free update stream contains no
update with completed equal to total logs no terminal completion line at
all — not exactly one regardless of timing. -/
theorem push_not_always_one_terminal_line :
    ¬ (((push resolvedAppender sampleImage okOracles oneProgressEnv).2.filter
        isTerminalLine).length = 1) := by decide

/-- C7 amended: on an error-free update stream, push logs exactly one
terminal completion line per update whose completed count equals its total
(so exactly one terminal line precisely when the stream carries exactly one
terminal update), and non-terminal progress lines are debounced: any
half-open window of one second contains at most one of them. -/
theorem push_progress_discipline (c : Appender) (img : Image) (o : Oracles)
    (env : PushEnv) (mt : MediaType) (w : Nat)
    (hmt : o.mediaTypeOf img = .ok mt)
    (hne : ∀ u ∈ env.updates, u.error = none) :
    ((push c img o env).2.filter isTerminalLine).length
      = (env.updates.filter (fun u => u.complete = u.total)).length ∧
    (((push c img o env).2.filter isProgressLine).filter
        (fun p => w ≤ p.2 ∧ p.2 < w + debounceNs)).length ≤ 1 := by
  have hlog : (push c img o env).2
      = (.infoMsg "pushing", env.startTime)
        :: (drain env.updates (env.startTime + debounceNs)).1 := by
    simp [push, hmt]
  rw [hlog]
  constructor
  · rw [List.filter_cons_of_neg (by simp [isTerminalLine])]
    exact drain_terminal_count env.updates (env.startTime + debounceNs) hne
  · rw [List.filter_cons_of_neg (by simp [isProgressLine])]
    exact window_count_le_one _ w
      (drain_progress_pairwise env.updates (env.startTime + debounceNs))

/-- C7 witness at a concrete error-free stream with one terminal update and
two non-terminal updates. -/
theorem push_progress_discipline_witness :
    ((push resolvedAppender sampleImage okOracles normalPushEnv).2.filter
        isTerminalLine).length
      = (normalPushEnv.updates.filter (fun u => u.complete = u.total)).length ∧
    (((push resolvedAppender sampleImage okOracles normalPushEnv).2.filter
        isProgressLine).filter
        (fun p => 0 ≤ p.2 ∧ p.2 < 0 + debounceNs)).length ≤ 1 :=
  push_progress_discipline resolvedAppender sampleImage okOracles normalPushEnv
    OCIManifestSchema1 0 rfl (by decide)

end Contain
